import Mathlib

/-!
Shallow embedding of `src/reachinbox-onebox/src/server.ts`: the per-message
processing pipeline (persist → classify → annotate → notify), the
Elasticsearch-backed record store, the new-mail fetch handler, the idle
watchdog, the IMAP error/end handlers and the search endpoint.

External collaborators (Elasticsearch, the Gemini classifier, the two
notification sinks, the IMAP server) are modelled by explicit environments:
each external call's outcome is an input to the embedded function, and the
embedded function computes exactly what the TypeScript code does with it.
-/

namespace ReachInbox

/-- The `EmailDocument` interface (server.ts lines 25-34).  `date` is kept
abstract as a `Nat` timestamp; `aiCategory?: string` becomes `Option String`. -/
structure EmailDocument where
  subject : String
  body : String
  accountId : String
  folder : String
  date : Nat
  aiCategory : Option String
  sender : String
  uid : String
deriving DecidableEq, Repr

/-- The `validCategories` list of `classifyEmail` (server.ts line 93), which is
also the closed label set announced in the classifier prompt and schema. -/
def validCategories : List String :=
  ["Interested", "Meeting Booked", "Not Interested", "Spam", "Out of Office"]

/-- The Elasticsearch `emails` index, modelled as an association list from
document id to document.  `storePut` models `elasticClient.index` (full
document replace at an id); a fresh binding shadows and removes any older
binding for the same id. -/
abbrev Store := List (String × EmailDocument)

instance {ε α : Type} [DecidableEq ε] [DecidableEq α] : DecidableEq (Except ε α)
  | .error a, .error b =>
    if h : a = b then .isTrue (by rw [h]) else .isFalse (by intro hh; cases hh; exact h rfl)
  | .error _, .ok _ => .isFalse (by intro hh; cases hh)
  | .ok _, .error _ => .isFalse (by intro hh; cases hh)
  | .ok a, .ok b =>
    if h : a = b then .isTrue (by rw [h]) else .isFalse (by intro hh; cases hh; exact h rfl)

/-- Look up the document stored under `id` (the unique key of the index). -/
def storeGet (s : Store) (id : String) : Option EmailDocument :=
  (s.find? (fun p => p.1 == id)).map Prod.snd

/-- Models `elasticClient.index { index, id, body }`: replace the whole document at
`id` with `doc`. -/
def storePut (s : Store) (id : String) (doc : EmailDocument) : Store :=
  (id, doc) :: s.filter (fun p => ¬ (p.1 == id))

/-- Models `indexEmail` (server.ts lines 60-68): index the email under its `uid`
(followed in the code by `indices.refresh`, which the trace model records). -/
def indexEmail (s : Store) (email : EmailDocument) : Store :=
  storePut s email.uid email

/-- Models `elasticClient.update { index, id, doc }` used by `updateEmailCategory`
(server.ts lines 103-113): merge `aiCategory` into the existing document at
`id`; Elasticsearch raises if no document with that id exists, which the
TypeScript surfaces as a thrown error. -/
def updateEmailCategory (s : Store) (id : String) (category : String) :
    Except Unit Store :=
  match storeGet s id with
  | some doc => .ok (storePut s id { doc with aiCategory := some category })
  | none => .error ()

/-- Outcome of the classifier HTTP call in `classifyEmail` (server.ts lines
71-92): either the fetch and `response.json()` both succeed, yielding a parsed
object whose `category` field may be absent or any string, or one of them
throws (`transportError`). -/
inductive ClassifyOutcome where
  | ok (category : Option String)
  | transportError
deriving DecidableEq, Repr

/-- Models `classifyEmail` (server.ts lines 71-100) after the HTTP call: if the parsed
response has a string `category` contained in `validCategories`, return it;
otherwise return the safe default `Not Interested`.  A thrown fetch/json
error propagates to the caller (`.error`). -/
def classifyEmail (outcome : ClassifyOutcome) : Except Unit String :=
  match outcome with
  | .transportError => .error ()
  | .ok data =>
    match data with
    | some c => if c ∈ validCategories then .ok c else .ok "Not Interested"
    | none => .ok "Not Interested"

/-- The two notification sinks of `triggerWebhooks` (server.ts lines 116-137):
the Slack webhook and the generic webhook.site URL. -/
inductive Sink where
  | slack
  | webhook
deriving DecidableEq, Repr

/-- Outcomes of the two sink `fetch` calls: each send either resolves or
throws. -/
structure NotifyEnv where
  slackResult : Except Unit Unit
  webhookResult : Except Unit Unit
deriving DecidableEq

/-- Models `triggerWebhooks` (server.ts lines 116-137): return immediately unless
`email.aiCategory` is exactly `Interested`; otherwise `await` the Slack POST
first and the generic webhook POST second.  The result is the list of sinks
actually contacted, in order, and the function's outcome (a thrown send error
propagates, skipping everything after it). -/
def triggerWebhooks (env : NotifyEnv) (email : EmailDocument) :
    List Sink × Except Unit Unit :=
  if email.aiCategory ≠ some "Interested" then ([], .ok ())
  else
    match env.slackResult with
    | .error e => ([.slack], .error e)
    | .ok _ =>
      match env.webhookResult with
      | .error e => ([.slack, .webhook], .error e)
      | .ok _ => ([.slack, .webhook], .ok ())

/-- Observable stage events of one pipeline run, used to state ordering
properties: `persist`/`annotate` are the two store writes, `refresh` is an
`indices.refresh` call, `classify` is the classifier call, `notify` is one
sink POST. -/
inductive StageEvent where
  | persist (uid : String)
  | refresh
  | classify (uid : String)
  | annotate (uid : String)
  | notify (sink : Sink) (uid : String)
deriving DecidableEq, Repr

/-- Environment of one `processNewEmail` run: the outcome of each external
call the run may make. -/
structure PipelineEnv where
  classifyOutcome : ClassifyOutcome
  slackResult : Except Unit Unit
  webhookResult : Except Unit Unit
deriving DecidableEq

/-- Result of one `processNewEmail` run: the store afterwards, the ordered
trace of stage events, the sinks notified, and whether the run resolved or
rejected. -/
structure RunResult where
  store : Store
  trace : List StageEvent
  notified : List Sink
  outcome : Except Unit Unit
deriving DecidableEq

/-- Models `processNewEmail` (server.ts lines 140-146): sequentially `await`
`indexEmail` (index + refresh), `classifyEmail`, `updateEmailCategory`
(update + refresh), set `emailData.aiCategory`, then `triggerWebhooks`.
A rejection at any `await` aborts the rest of the run and propagates. -/
def processNewEmail (env : PipelineEnv) (s : Store) (emailData : EmailDocument) :
    RunResult :=
  let s1 := indexEmail s emailData
  let t1 := [StageEvent.persist emailData.uid, StageEvent.refresh]
  match classifyEmail env.classifyOutcome with
  | .error e => ⟨s1, t1, [], .error e⟩
  | .ok category =>
    let t2 := t1 ++ [StageEvent.classify emailData.uid]
    match updateEmailCategory s1 emailData.uid category with
    | .error e => ⟨s1, t2, [], .error e⟩
    | .ok s2 =>
      let t3 := t2 ++ [StageEvent.annotate emailData.uid, StageEvent.refresh]
      let emailData2 := { emailData with aiCategory := some category }
      let sent := triggerWebhooks ⟨env.slackResult, env.webhookResult⟩ emailData2
      ⟨s2, t3 ++ sent.1.map (fun k => StageEvent.notify k emailData2.uid),
        sent.1, sent.2⟩

/-- A message currently present in the open mailbox: its server-assigned UID
and its raw content.  Its sequence number is its 1-based position in the
mailbox list and shifts as messages come and go; the UID is stable. -/
structure MailboxMsg where
  uid : Nat
  raw : String
deriving DecidableEq, Repr

/-- Models `imap.seq.fetch` over a positional sequence-number range `lo:hi`:
the messages at 1-based positions `lo` through `hi` of the current mailbox. -/
def seqFetch (mailbox : List MailboxMsg) (lo hi : Nat) : List MailboxMsg :=
  (mailbox.drop (lo - 1)).take (hi + 1 - lo)

/-- Models the message set fetched by the `imap.on(mail)` handler (server.ts
lines 210-236): on every new-mail event it issues
`imap.seq.fetch(1:*, ...)` — the positional range from sequence number 1 to
the highest — so it retrieves every message currently in the mailbox; the
event's `numNewMsgs` argument is only logged, never used to narrow the
range. -/
def onMailFetched (mailbox : List MailboxMsg) (_numNewMsgs : Nat) :
    List MailboxMsg :=
  seqFetch mailbox 1 mailbox.length

/-- Fields that `simpleParser` may or may not recover from a raw message
(server.ts lines 220-228): each is absent or present. -/
structure ParsedMail where
  subject : Option String
  text : Option String
  date : Option Nat
  fromText : Option String
deriving DecidableEq, Repr

/-- Models the `EmailDocument` literal built in the body handler of the
new-mail fetcher (server.ts lines 221-229): absent parsed fields default to
the empty string (or the current date), and `uid` is
`attributes.uid.toString()` — the server-assigned UID from the fetch
attributes, not the positional sequence number. -/
def buildEmailDoc (user : String) (now : Nat) (uidAttr : Nat)
    (parsed : ParsedMail) : EmailDocument :=
  { subject := parsed.subject.getD ""
    body := parsed.text.getD ""
    accountId := user
    folder := "INBOX"
    date := parsed.date.getD now
    aiCategory := none
    sender := parsed.fromText.getD ""
    uid := toString uidAttr }

/-- Keep-alive capability detected by `setupIdleWatchdog` (server.ts lines
153-169): whether the underlying client object exposes an `idle()` method,
else a `noop()` method, else neither (in which case the callback only logs). -/
inductive KeepAliveCap where
  | hasIdle
  | hasNoop
  | neither
deriving DecidableEq, Repr

/-- Observable events of the session loop: a watchdog keep-alive probe, and
the start and completion of a fetch batch. -/
inductive SessionEvent where
  | probe
  | fetchStart
  | fetchEnd
deriving DecidableEq, Repr

/-- One observable step of the session loop.  The Boolean state records
whether a fetch batch is in flight.  `fetchStart`/`fetchEnd` bracket a fetch.
The watchdog `setInterval` callback (server.ts lines 153-169) runs whenever
its timer fires and sends the probe whenever a keep-alive method exists: it
consults no fetch or busy state, so the `probe` step is enabled in every
state, in-flight fetch included. -/
inductive SessionStep (cap : KeepAliveCap) : Bool → SessionEvent → Bool → Prop where
  | fetchStart : SessionStep cap false SessionEvent.fetchStart true
  | fetchEnd : SessionStep cap true SessionEvent.fetchEnd false
  | watchdogTick (inFlight : Bool) (h : cap ≠ KeepAliveCap.neither) :
      SessionStep cap inFlight SessionEvent.probe inFlight

/-- Finite execution traces of the session loop, as sequences of observable
events between two states. -/
inductive SessionTrace (cap : KeepAliveCap) : Bool → List SessionEvent → Bool → Prop where
  | nil (b : Bool) : SessionTrace cap b [] b
  | cons {a b c : Bool} {e : SessionEvent} {t : List SessionEvent} :
      SessionStep cap a e b → SessionTrace cap b t c → SessionTrace cap a (e :: t) c

/-- Period of the watchdog `setInterval` (server.ts line 168):
`29 * 60 * 1000` milliseconds. -/
def watchdogPeriodMs : Nat := 29 * 60 * 1000

/-- Actions an IMAP lifecycle handler could take on the session. -/
inductive HandlerAction where
  | logError
  | logEnd
  | closeSocket
  | backoffWait
  | reconnect
deriving DecidableEq, Repr

/-- Models the `imap.once(error)` handler (server.ts lines 242-245): it logs
the error and does nothing else — the comment in the source reads
`Could add reconnection logic here in production`. -/
def onImapError (_err : String) : List HandlerAction :=
  [HandlerAction.logError]

/-- Models the `imap.once(end)` handler for a server-initiated close
(server.ts lines 247-250): it logs and does nothing else. -/
def onImapEnd : List HandlerAction :=
  [HandlerAction.logEnd]

/-- One Elasticsearch search hit: response metadata plus the stored document
(`_source`). -/
structure SearchHit where
  hitId : String
  source : EmailDocument
deriving DecidableEq, Repr

/-- Body of an HTTP response of the search endpoint: either the JSON array of
documents, or the JSON object `{ error: ... }`. -/
inductive ResponseBody where
  | results (docs : List EmailDocument)
  | errorBody (message : String)
deriving DecidableEq, Repr

/-- An HTTP response: status code and body. -/
structure HttpResponse where
  status : Nat
  body : ResponseBody
deriving DecidableEq, Repr

/-- Query parameters of `/api/emails/search` after destructuring and parsing
(server.ts line 261): `q` defaults to the empty string, `page`/`size` to 1
and 20. -/
structure SearchQueryParams where
  q : String
  accountId : Option String
  folder : Option String
  page : Nat
  size : Nat
deriving DecidableEq, Repr

/-- The Elasticsearch query object assembled by the search handler. -/
structure EsQuery where
  fromOffset : Nat
  size : Nat
  textQuery : Option String
  accountFilter : Option String
  folderFilter : Option String
deriving DecidableEq, Repr

/-- Models `esQuery` construction (server.ts lines 263-275): offset
`(page - 1) * size`, a `multi_match` on subject/body when `q` is truthy
(non-empty) and `match_all` otherwise, and optional `term` filters for
`accountId` and `folder`. -/
def buildEsQuery (p : SearchQueryParams) : EsQuery :=
  { fromOffset := (p.page - 1) * p.size
    size := p.size
    textQuery := if p.q = "" then none else some p.q
    accountFilter := p.accountId
    folderFilter := p.folder }

/-- Models the `/api/emails/search` handler (server.ts lines 259-284).  The
whole body runs inside try/catch: on success it responds (status 200, the
express default) with `result.hits.hits.map(hit => hit._source)`; any error
thrown by the store search is caught inside the handler and answered with
status 500 and body `{ error: Search failed }`. -/
def searchHandler (search : EsQuery → Except Unit (List SearchHit))
    (p : SearchQueryParams) : HttpResponse :=
  match search (buildEsQuery p) with
  | .ok result => ⟨200, ResponseBody.results (result.map (fun h => h.source))⟩
  | .error _ => ⟨500, ResponseBody.errorBody "Search failed"⟩

/-- Pipeline phase of a stage event: Persist 0, Classify 1, Annotate 2,
Notify 3; a `refresh` is part of the store write it follows and carries no
phase of its own. -/
def stagePhase : StageEvent → Option Nat
  | StageEvent.persist _ => some 0
  | StageEvent.refresh => none
  | StageEvent.classify _ => some 1
  | StageEvent.annotate _ => some 2
  | StageEvent.notify _ _ => some 3

/-- The sequence of pipeline phases visited by a trace. -/
def stagesOf (t : List StageEvent) : List Nat :=
  t.filterMap stagePhase

/-- All labels present on documents in the store belong to the fixed
five-value category set. -/
def storeLabelsValid (s : Store) : Prop :=
  ∀ p ∈ s, ∀ c, p.2.aiCategory = some c → c ∈ validCategories

/- Helper lemmas -/

theorem storeGet_storePut_same (s : Store) (id : String) (d : EmailDocument) :
    storeGet (storePut s id d) id = some d := by
  simp [storeGet, storePut]

theorem updateEmailCategory_indexEmail (s : Store) (e : EmailDocument)
    (c : String) :
    updateEmailCategory (indexEmail s e) e.uid c
      = Except.ok (storePut (indexEmail s e) e.uid { e with aiCategory := some c }) := by
  simp [updateEmailCategory, indexEmail, storeGet_storePut_same]

theorem classifyEmail_ok_mem (o : ClassifyOutcome) (c : String)
    (h : classifyEmail o = Except.ok c) : c ∈ validCategories := by
  cases o with
  | transportError => simp [classifyEmail] at h
  | ok cat =>
    cases cat with
    | none =>
        simp [classifyEmail] at h
        subst h; decide
    | some c2 =>
        by_cases hv : c2 ∈ validCategories
        · simp [classifyEmail, hv] at h
          subst h; exact hv
        · simp [classifyEmail, hv] at h
          subst h; decide

/-- Complete case analysis of one `processNewEmail` run: either the classifier
call rejected and the run aborted right after Persist, or it produced a label
`c` and the run completed Persist, Classify, Annotate and handed the labeled
record to `triggerWebhooks`. -/
theorem processNewEmail_cases (env : PipelineEnv) (s : Store) (e : EmailDocument) :
    (env.classifyOutcome = ClassifyOutcome.transportError
      ∧ processNewEmail env s e
        = ⟨indexEmail s e, [StageEvent.persist e.uid, StageEvent.refresh], [],
            Except.error ()⟩)
    ∨ (∃ c, classifyEmail env.classifyOutcome = Except.ok c
        ∧ processNewEmail env s e
          = ⟨storePut (indexEmail s e) e.uid { e with aiCategory := some c },
              [StageEvent.persist e.uid, StageEvent.refresh,
               StageEvent.classify e.uid, StageEvent.annotate e.uid,
               StageEvent.refresh]
              ++ (triggerWebhooks ⟨env.slackResult, env.webhookResult⟩
                    { e with aiCategory := some c }).1.map
                  (fun k => StageEvent.notify k e.uid),
              (triggerWebhooks ⟨env.slackResult, env.webhookResult⟩
                  { e with aiCategory := some c }).1,
              (triggerWebhooks ⟨env.slackResult, env.webhookResult⟩
                  { e with aiCategory := some c }).2⟩) := by
  obtain ⟨co, sr, wr⟩ := env
  cases co with
  | transportError => exact Or.inl ⟨rfl, rfl⟩
  | ok cat =>
    refine Or.inr ?_
    have hok : ∃ c, classifyEmail (ClassifyOutcome.ok cat) = Except.ok c := by
      cases cat with
      | none => exact ⟨"Not Interested", rfl⟩
      | some c2 =>
          by_cases hv : c2 ∈ validCategories
          · exact ⟨c2, by simp [classifyEmail, hv]⟩
          · exact ⟨"Not Interested", by simp [classifyEmail, hv]⟩
    obtain ⟨c, hc⟩ := hok
    refine ⟨c, hc, ?_⟩
    simp [processNewEmail, hc, updateEmailCategory_indexEmail]

theorem triggerWebhooks_not_interested (env : NotifyEnv) (e : EmailDocument)
    (h : e.aiCategory ≠ some "Interested") :
    triggerWebhooks env e = ([], Except.ok ()) := by
  simp [triggerWebhooks, h]

theorem triggerWebhooks_sent_shape (env : NotifyEnv) (e : EmailDocument) :
    (triggerWebhooks env e).1 = []
      ∨ (triggerWebhooks env e).1 = [Sink.slack]
      ∨ (triggerWebhooks env e).1 = [Sink.slack, Sink.webhook] := by
  by_cases h : e.aiCategory = some "Interested"
  · obtain ⟨sr, wr⟩ := env
    cases sr <;> cases wr <;> simp [triggerWebhooks, h]
  · simp [triggerWebhooks_not_interested env e h]

/-- Claim C3 (confirmed): every pipeline run's trace opens with the Persist
write immediately followed by a store refresh (read-after-write visibility
before anything else, in particular before Classify), and the pipeline phases
along the trace are monotone — Persist, then Classify, then Annotate, then
Notify, each stage event only after all events of the earlier stages. -/
theorem processNewEmail_stage_order (env : PipelineEnv) (s : Store)
    (e : EmailDocument) :
    ((processNewEmail env s e).trace).take 2
        = [StageEvent.persist e.uid, StageEvent.refresh]
      ∧ List.Chain' (fun a b => a ≤ b) (stagesOf (processNewEmail env s e).trace) := by
  rcases processNewEmail_cases env s e with ⟨-, hrun⟩ | ⟨c, -, hrun⟩ <;> rw [hrun]
  · exact ⟨rfl, by simp [stagesOf, stagePhase]⟩
  · refine ⟨rfl, ?_⟩
    rcases triggerWebhooks_sent_shape ⟨env.slackResult, env.webhookResult⟩
        { e with aiCategory := some c } with h | h | h <;>
      rw [h] <;> simp [stagesOf, stagePhase]

/-- Claim C4 (confirmed): for a record that arrives unlabeled, the Notify
stage contacts at least one sink if and only if the record's final stored
label is exactly `Interested`; for every other stored label, including the
default, and for a run aborted by a classifier failure, no sink is
contacted. -/
theorem notified_iff_interested (env : PipelineEnv) (s : Store)
    (e : EmailDocument) (h : e.aiCategory = none) :
    (processNewEmail env s e).notified ≠ []
      ↔ (storeGet (processNewEmail env s e).store e.uid).bind
          (fun d => d.aiCategory) = some "Interested" := by
  rcases processNewEmail_cases env s e with ⟨-, hrun⟩ | ⟨c, hc, hrun⟩ <;> rw [hrun]
  · simp [indexEmail, storeGet_storePut_same, h]
  · by_cases hci : c = "Interested"
    · subst hci
      obtain ⟨co, sr, wr⟩ := env
      cases sr <;> cases wr <;>
        simp [storeGet_storePut_same, triggerWebhooks]
    · have htw := triggerWebhooks_not_interested
        ⟨env.slackResult, env.webhookResult⟩ { e with aiCategory := some c }
        (by simpa using hci)
      simp [htw, storeGet_storePut_same, hci]

/-- Witness for C4 at a concrete record classified `Spam`: no sink contacted
and the stored label is not `Interested`. -/
theorem notified_iff_interested_witness :
    (processNewEmail ⟨ClassifyOutcome.ok (some "Spam"), Except.ok (), Except.ok ()⟩
        [] ⟨"s", "b", "me@x.com", "INBOX", 0, none, "a@b.c", "117"⟩).notified ≠ []
      ↔ (storeGet (processNewEmail
            ⟨ClassifyOutcome.ok (some "Spam"), Except.ok (), Except.ok ()⟩
            [] ⟨"s", "b", "me@x.com", "INBOX", 0, none, "a@b.c", "117"⟩).store
            "117").bind (fun d => d.aiCategory) = some "Interested" :=
  notified_iff_interested
    ⟨ClassifyOutcome.ok (some "Spam"), Except.ok (), Except.ok ()⟩
    [] ⟨"s", "b", "me@x.com", "INBOX", 0, none, "a@b.c", "117"⟩ rfl

/-- Claim C7 (confirmed): processing the same record twice (same environment,
so the classifier outcome is the same) is idempotent — the document stored
under the record's unique identifier after both runs equals the one stored
after a single run — and the stored document always exists under the
UID-derived key and carries that same identifier (the key is immutable). -/
theorem processNewEmail_idempotent (env : PipelineEnv) (s : Store)
    (e : EmailDocument) :
    storeGet (processNewEmail env (processNewEmail env s e).store e).store e.uid
        = storeGet (processNewEmail env s e).store e.uid
      ∧ (storeGet (processNewEmail env s e).store e.uid).map (fun d => d.uid)
        = some e.uid := by
  rcases processNewEmail_cases env s e with ⟨hco, hrun1⟩ | ⟨c, hc, hrun1⟩ <;>
    rcases processNewEmail_cases env (processNewEmail env s e).store e with
      ⟨hco2, hrun2⟩ | ⟨c2, hc2, hrun2⟩ <;> rw [hrun2, hrun1]
  · simp [indexEmail, storeGet_storePut_same]
  · rw [hco] at hc2
    simp [classifyEmail] at hc2
  · rw [hco2] at hc
    simp [classifyEmail] at hc
  · rw [hc] at hc2
    cases hc2
    simp [indexEmail, storeGet_storePut_same]

/-- Claim C8 (confirmed): starting from a store whose stored labels all lie
in the fixed five-value set, a pipeline run on an unlabeled record keeps that
invariant, and the classifier stage can only ever hand the Annotate stage a
label from the set (an out-of-set response is replaced by the conservative
default before storage). -/
theorem stored_labels_in_set (env : PipelineEnv) (s : Store) (e : EmailDocument)
    (hs : storeLabelsValid s) (he : e.aiCategory = none) :
    storeLabelsValid (processNewEmail env s e).store := by
  have hput : ∀ (s2 : Store) (id : String) (d : EmailDocument),
      storeLabelsValid s2 → (∀ c, d.aiCategory = some c → c ∈ validCategories) →
      storeLabelsValid (storePut s2 id d) := by
    intro s2 id d hs2 hd p hp c hc
    simp only [storePut, List.mem_cons, List.mem_filter] at hp
    rcases hp with rfl | ⟨hp, -⟩
    · exact hd c hc
    · exact hs2 p hp c hc
  have hbase : storeLabelsValid (indexEmail s e) :=
    hput s e.uid e hs (fun c hc => by rw [he] at hc; cases hc)
  rcases processNewEmail_cases env s e with ⟨-, hrun⟩ | ⟨c, hc, hrun⟩ <;> rw [hrun]
  · exact hbase
  · exact hput (indexEmail s e) e.uid { e with aiCategory := some c } hbase
      (fun c2 hc2 => by
        simp only [Option.some.injEq] at hc2
        rw [← hc2]
        exact classifyEmail_ok_mem env.classifyOutcome c hc)

/-- Witness for C8: from the empty store, running the pipeline on an
unlabeled record with a garbage classifier response leaves every stored
label inside the fixed set. -/
theorem stored_labels_in_set_witness :
    storeLabelsValid (processNewEmail
        ⟨ClassifyOutcome.ok (some "Banana"), Except.ok (), Except.ok ()⟩
        [] ⟨"s", "b", "me@x.com", "INBOX", 0, none, "a@b.c", "120"⟩).store :=
  stored_labels_in_set
    ⟨ClassifyOutcome.ok (some "Banana"), Except.ok (), Except.ok ()⟩
    [] ⟨"s", "b", "me@x.com", "INBOX", 0, none, "a@b.c", "120"⟩
    (fun p hp => absurd hp (List.not_mem_nil p)) rfl

/-- Counterexample to claim C1 as stated: for a record whose classifier call
raises a transport error (UID 118), the run does not leave the record stored
with the default label and does not complete — `classifyEmail` only maps an
invalid parsed response to the default; a thrown fetch/json error propagates,
so the run rejects after Persist and the record stays unlabeled. -/
theorem classify_transport_error_not_defaulted :
    ¬ (((storeGet (processNewEmail
          ⟨ClassifyOutcome.transportError, Except.ok (), Except.ok ()⟩
          [] ⟨"Re: quote", "body text", "me@x.com", "INBOX", 0, none, "a@b.c",
              "118"⟩).store "118").bind (fun d => d.aiCategory)
            = some "Not Interested")
        ∧ (processNewEmail
            ⟨ClassifyOutcome.transportError, Except.ok (), Except.ok ()⟩
            [] ⟨"Re: quote", "body text", "me@x.com", "INBOX", 0, none, "a@b.c",
                "118"⟩).outcome = Except.ok ()) := by
  decide

/-- Claim C1 (amended): a classifier call that yields a parsed response whose
category is absent or outside the five-label set stores the conservative
default `Not Interested`, emits no notification and completes; but a
classifier call that fails (transport error) aborts that record's run before
the Annotate stage — the record remains stored with no label at all, no
notification is emitted, and the run rejects. -/
theorem classify_invalid_defaults_error_aborts (env : PipelineEnv) (s : Store)
    (e : EmailDocument) (he : e.aiCategory = none) :
    (∀ cat : Option String, env.classifyOutcome = ClassifyOutcome.ok cat →
        (∀ c, cat = some c → c ∉ validCategories) →
        (storeGet (processNewEmail env s e).store e.uid).bind
            (fun d => d.aiCategory) = some "Not Interested"
          ∧ (processNewEmail env s e).notified = []
          ∧ (processNewEmail env s e).outcome = Except.ok ())
      ∧ (env.classifyOutcome = ClassifyOutcome.transportError →
        (storeGet (processNewEmail env s e).store e.uid).bind
            (fun d => d.aiCategory) = none
          ∧ (processNewEmail env s e).notified = []
          ∧ (processNewEmail env s e).outcome = Except.error ()) := by
  constructor
  · intro cat hco hinv
    have hc : classifyEmail env.classifyOutcome = Except.ok "Not Interested" := by
      cases cat with
      | none => simp [hco, classifyEmail]
      | some c => simp [hco, classifyEmail, hinv c rfl]
    rcases processNewEmail_cases env s e with ⟨hco2, -⟩ | ⟨c, hc2, hrun⟩
    · rw [hco] at hco2; cases hco2
    · rw [hc] at hc2
      cases hc2
      rw [hrun]
      have htw := triggerWebhooks_not_interested
        ⟨env.slackResult, env.webhookResult⟩
        { e with aiCategory := some "Not Interested" } (by simp)
      simp [storeGet_storePut_same, htw]
  · intro hco
    rcases processNewEmail_cases env s e with ⟨-, hrun⟩ | ⟨c, hc2, -⟩
    · rw [hrun]
      simp [indexEmail, storeGet_storePut_same, he]
    · rw [hco] at hc2
      simp [classifyEmail] at hc2

/-- Witness for C1 (amended) at a concrete out-of-set response `Banana`: the
record ends up stored with the default label. -/
theorem classify_invalid_defaults_error_aborts_witness :
    (storeGet (processNewEmail
        ⟨ClassifyOutcome.ok (some "Banana"), Except.ok (), Except.ok ()⟩
        [] ⟨"s", "b", "me@x.com", "INBOX", 0, none, "a@b.c", "119"⟩).store
        "119").bind (fun d => d.aiCategory) = some "Not Interested" :=
  ((classify_invalid_defaults_error_aborts
      ⟨ClassifyOutcome.ok (some "Banana"), Except.ok (), Except.ok ()⟩
      [] ⟨"s", "b", "me@x.com", "INBOX", 0, none, "a@b.c", "119"⟩ rfl).1
    (some "Banana") rfl (fun c hc => by cases hc; decide)).1

/-- Counterexample to claim C2 as stated: with a mailbox holding the
already-processed UID 117 and the newly arrived UID 118, a new-mail event for
one new message does not fetch only the new message — the `1:*` sequence
fetch retrieves the already-processed message again, so it is re-run through
the pipeline. -/
theorem onMail_refetches_processed_message :
    onMailFetched [⟨117, "processed"⟩, ⟨118, "new"⟩] 1 ≠ [⟨118, "new"⟩]
      ∧ (⟨117, "processed"⟩ : MailboxMsg)
          ∈ onMailFetched [⟨117, "processed"⟩, ⟨118, "new"⟩] 1 := by
  decide

/-- Claim C2 (amended): on every new-mail event the handler fetches, by the
positional sequence-number range `1:*`, every message currently in the
mailbox — already-processed messages included, which are therefore re-run
through the pipeline — and the record built for each fetched message takes
its identity from the server-assigned UID in the fetch attributes, never from
the sequence position. -/
theorem onMail_fetches_whole_mailbox (mailbox : List MailboxMsg) (n : Nat) :
    onMailFetched mailbox n = mailbox
      ∧ ∀ (user : String) (now u : Nat) (parsed : ParsedMail),
        (buildEmailDoc user now u parsed).uid = toString u := by
  refine ⟨?_, fun user now u parsed => rfl⟩
  simp [onMailFetched, seqFetch]

/-- Counterexample to claim C5 as stated: not every execution trace of the
session loop keeps watchdog probes outside in-flight fetches — the trace
fetch-start, probe, fetch-end is reachable, because the `setInterval`
callback consults no fetch state before probing. -/
theorem watchdog_probe_during_fetch :
    ¬ (∀ (t : List SessionEvent) (a b : Bool),
        SessionTrace KeepAliveCap.hasIdle a t b →
        ∀ i j k, i < j → j < k →
          t.get? i = some SessionEvent.fetchStart →
          t.get? k = some SessionEvent.fetchEnd →
          ¬ t.get? j = some SessionEvent.probe) := by
  intro hall
  have htr : SessionTrace KeepAliveCap.hasIdle false
      [SessionEvent.fetchStart, SessionEvent.probe, SessionEvent.fetchEnd] false :=
    SessionTrace.cons SessionStep.fetchStart
      (SessionTrace.cons (SessionStep.watchdogTick true (by decide))
        (SessionTrace.cons SessionStep.fetchEnd (SessionTrace.nil false)))
  exact hall _ false false htr 0 1 2 (by decide) (by decide) rfl rfl rfl

/-- Claim C5 (amended): the watchdog fires on a fixed 29-minute
(1,740,000 ms) period and, whenever the client exposes a keep-alive method,
issues its probe in every session state — the probe step is enabled even
while a fetch is in flight; nothing suppresses it. -/
theorem watchdog_probe_unsuppressed (cap : KeepAliveCap) (b : Bool)
    (h : cap ≠ KeepAliveCap.neither) :
    SessionStep cap b SessionEvent.probe b ∧ watchdogPeriodMs = 1740000 :=
  ⟨SessionStep.watchdogTick b h, rfl⟩

/-- Witness for C5 (amended): with the `idle()` capability, the probe step is
enabled while a fetch is in flight. -/
theorem watchdog_probe_unsuppressed_witness :
    SessionStep KeepAliveCap.hasIdle true SessionEvent.probe true
      ∧ watchdogPeriodMs = 1740000 :=
  watchdog_probe_unsuppressed KeepAliveCap.hasIdle true (by decide)

/-- Counterexample to claim C6 as stated: on a concrete network error and on
a server-initiated close, the session never re-runs `connect()` — the
`reconnect` action is absent from what either lifecycle handler does. -/
theorem imap_error_no_reconnect :
    HandlerAction.reconnect ∉ onImapError "ECONNRESET"
      ∧ HandlerAction.reconnect ∉ onImapEnd := by
  decide

/-- Claim C6 (amended): on any IMAP error, and on a server-initiated close,
the handlers only log: no transition to a reconnecting state, no socket
close, no backoff wait and no reconnection attempt is performed, and auth
errors are not distinguished from network errors. -/
theorem imap_handlers_log_only (err : String) :
    onImapError err = [HandlerAction.logError]
      ∧ onImapEnd = [HandlerAction.logEnd]
      ∧ HandlerAction.reconnect ∉ onImapError err
      ∧ HandlerAction.backoffWait ∉ onImapError err
      ∧ HandlerAction.closeSocket ∉ onImapError err
      ∧ HandlerAction.reconnect ∉ onImapEnd := by
  simp [onImapError, onImapEnd]

/-- Claim C9 (confirmed): the search endpoint answers any store-search error
with status 500 and exactly the body `{ error: Search failed }` (the error is
consumed inside the handler, which still returns a response), and answers a
successful search with status 200 and the array of the hits' stored source
documents. -/
theorem search_endpoint_behavior
    (search : EsQuery → Except Unit (List SearchHit)) (p : SearchQueryParams) :
    (∀ er, search (buildEsQuery p) = Except.error er →
        searchHandler search p = ⟨500, ResponseBody.errorBody "Search failed"⟩)
      ∧ ∀ hits, search (buildEsQuery p) = Except.ok hits →
        searchHandler search p
          = ⟨200, ResponseBody.results (hits.map (fun h => h.source))⟩ := by
  constructor <;> intro x hx <;> simp [searchHandler, hx]

/-- Witness for C9 at a failing and at a succeeding store search. -/
theorem search_endpoint_behavior_witness :
    searchHandler (fun _ => Except.error ()) ⟨"", none, none, 1, 20⟩
        = ⟨500, ResponseBody.errorBody "Search failed"⟩
      ∧ searchHandler (fun _ => Except.ok []) ⟨"", none, none, 1, 20⟩
        = ⟨200, ResponseBody.results []⟩ :=
  ⟨(search_endpoint_behavior (fun _ => Except.error ())
      ⟨"", none, none, 1, 20⟩).1 () rfl,
    (search_endpoint_behavior (fun _ => Except.ok [])
      ⟨"", none, none, 1, 20⟩).2 [] rfl⟩

/-- Claim C10 (confirmed): for an `Interested` record the Notify stage
contacts Slack first and the generic webhook second; if the Slack send
throws, the webhook is never contacted and the error propagates out of the
stage to its caller, while if Slack succeeds both sinks are contacted in
that order. -/
theorem slack_failure_skips_webhook (env : NotifyEnv) (e : EmailDocument)
    (h : e.aiCategory = some "Interested") :
    (env.slackResult = Except.error () →
        triggerWebhooks env e = ([Sink.slack], Except.error ()))
      ∧ (env.slackResult = Except.ok () →
        (triggerWebhooks env e).1 = [Sink.slack, Sink.webhook]) := by
  obtain ⟨sr, wr⟩ := env
  constructor <;> intro hs <;> cases hs <;> cases wr <;>
    simp [triggerWebhooks, h]

/-- Witness for C10 at a concrete `Interested` record whose Slack send
throws: only Slack was contacted and the stage rejected. -/
theorem slack_failure_skips_webhook_witness :
    triggerWebhooks ⟨Except.error (), Except.ok ()⟩
        ⟨"s", "b", "me@x.com", "INBOX", 0, some "Interested", "a@b.c", "121"⟩
      = ([Sink.slack], Except.error ()) :=
  (slack_failure_skips_webhook ⟨Except.error (), Except.ok ()⟩
    ⟨"s", "b", "me@x.com", "INBOX", 0, some "Interested", "a@b.c", "121"⟩
    rfl).1 rfl

end ReachInbox
